import Mathlib

/-!
Shallow embedding of the AI Generation Gateway of the sw-musicfasapi backend:
the service classes `GoogleCloudAIService` (src/backend/app/services/google_ai.py),
`VertexAIService` (src/backend/app/services/vertex_ai.py) and
`VertexAIServiceSimple` (src/backend/app/services/vertex_ai_simple.py), together
with the route dispatch of src/backend/app/api/routes/google_ai.py.

Remote model backends (text-bison `predict`, Gemini `generate_content`, the
genai streaming client) are modelled as oracle functions stored in the service
state; each gateway operation returns its Python outcome (`Except Err result`)
together with the list of provider requests it actually issued, so that
"the secondary provider is never invoked" and "no network call is attempted"
become statements about that trace.
-/

namespace SwMusic

/-- Python exception values raised inside the gateway.  The source code raises
and catches only the base class `Exception`; the constructors record the
conceptual class of the failure (configuration error, provider failure,
validation error, anything else) so that claims about specific error classes
can be stated.  Every constructor is a subclass of `Exception` in the model:
a Python `except Exception:` handler catches all of them. -/
inductive Err where
  | notInitialized (msg : String)
  | generationFailure (cause : String)
  | validationError (field : String)
  | other (msg : String)
deriving DecidableEq, Repr

/-- `str(e)` of a Python exception: its message. -/
def Err.message : Err → String
  | .notInitialized m => m
  | .generationFailure m => m
  | .validationError m => m
  | .other m => m

/-- Modelled from the spec: the configuration surface read by the services
(`app/core/config.py` is not among the sources).  §6 of the design document
enumerates it as projectId, region, modelId and an optional API key; a field
holding `none` or `some ""` is "not configured" (falsy in Python). -/
structure Settings where
  GOOGLE_CLOUD_PROJECT : Option String
  GOOGLE_CLOUD_LOCATION : String
  GOOGLE_API_KEY : Option String
  VERTEX_AI_MODEL : String
deriving DecidableEq, Repr

/-- Python truthiness of an optional string setting: `None` and `""` are falsy. -/
def truthy : Option String → Bool
  | none => false
  | some s => s ≠ ""

/-- Python `v or d` for an optional string `v` and default `d`. -/
def pyOr (v : Option String) (d : String) : String :=
  match v with
  | none => d
  | some s => if s = "" then d else s

namespace GoogleAI

/-- A `TextGenerationModel.predict` request issued by `generate_text_with_bison`. -/
structure BisonRequest where
  prompt : String
  temperature : ℚ
  max_output_tokens : ℕ
  top_p : ℚ
  top_k : ℕ
deriving DecidableEq, Repr

/-- The `generation_config` dict built by `generate_text_with_gemini`.  It holds
exactly the four keys the source puts in the dict; in particular it has no
safety-settings entry. -/
structure GeminiGenerationConfig where
  temperature : ℚ
  top_p : ℚ
  top_k : ℕ
  max_output_tokens : ℕ
deriving DecidableEq, Repr

/-- One of the fixed safety settings attached by the Vertex services. -/
structure SafetySetting where
  category : String
  threshold : String
deriving DecidableEq, Repr

/-- A `GenerativeModel("gemini-pro").generate_content` call as issued by
`generate_text_with_gemini`: the prompt, the `generation_config` dict, and the
`safety_settings` argument.  The source call site passes no `safety_settings`
argument at all, so the field is `none` for every request this service sends. -/
structure GeminiRequest where
  prompt : String
  generation_config : GeminiGenerationConfig
  safety_settings : Option (List SafetySetting)
deriving DecidableEq, Repr

/-- A provider network call attempted by the GoogleCloudAIService. -/
inductive ProviderCall where
  | bisonCall (r : BisonRequest)
  | geminiCall (r : GeminiRequest)
deriving DecidableEq, Repr

/-- State of one `GoogleCloudAIService` instance, with the two remote models as
oracles: `bison` is the behaviour of `TextGenerationModel.predict` and `gemini`
the behaviour of `GenerativeModel.generate_content` (returning `response.text`
or raising). -/
structure GoogleCloudAIService where
  is_initialized : Bool
  project_id : Option String
  location : String
  bison : BisonRequest → Except Err String
  gemini : GeminiRequest → Except Err String

/-- Message of the exception raised by `_check_initialization`. -/
def not_init_msg : String :=
  "Google Cloud AI Platform no está inicializado. Verifica la configuración del proyecto y las credenciales."

/-- `GoogleCloudAIService._check_initialization`. -/
def check_initialization (s : GoogleCloudAIService) : Except Err Unit :=
  if ! s.is_initialized then
    .error (.notInitialized not_init_msg)
  else
    .ok ()

/-- `GoogleCloudAIService.generate_text_with_bison`: fail fast when not
initialized, otherwise issue one `predict` call; the `except` block only logs
and re-raises.  Returns the outcome and the provider calls attempted. -/
def generate_text_with_bison (s : GoogleCloudAIService) (prompt : String)
    (temperature : ℚ) (max_output_tokens : ℕ) (top_p : ℚ) (top_k : ℕ) :
    Except Err String × List ProviderCall :=
  match check_initialization s with
  | .error e => (.error e, [])
  | .ok _ =>
    let req : BisonRequest := ⟨prompt, temperature, max_output_tokens, top_p, top_k⟩
    (s.bison req, [.bisonCall req])

/-- `GoogleCloudAIService.generate_text_with_gemini`: fail fast when not
initialized, otherwise build the `generation_config` dict and issue one
`generate_content` call (no `safety_settings` argument is passed). -/
def generate_text_with_gemini (s : GoogleCloudAIService) (prompt : String)
    (temperature : ℚ) (max_output_tokens : ℕ) (top_p : ℚ) (top_k : ℕ) :
    Except Err String × List ProviderCall :=
  match check_initialization s with
  | .error e => (.error e, [])
  | .ok _ =>
    let req : GeminiRequest :=
      ⟨prompt, ⟨temperature, top_p, top_k, max_output_tokens⟩, none⟩
    (s.gemini req, [.geminiCall req])

/-- The f-string prompt template of `generate_music_intro`. -/
def intro_prompt (style genre language duration : String) : String :=
  s!"\n        Genera un intro de {style} en {language} para un programa de música {genre}.\n        El intro debe:\n        - Durar aproximadamente {duration}\n        - Ser energético y atractivo\n        - Incluir una llamada a la acción\n        - Mencionar el género musical {genre}\n        - Tener un tono profesional pero amigable\n        \n        Ejemplo de formato:\n        \"¡Bienvenidos a [Nombre del programa]! Tu destino para la mejor música {genre}...\"\n        "

/-- The primary (text-bison) request of `generate_music_intro`: temperature 0.8,
max_output_tokens 512, with `top_p` and `top_k` at the method defaults 0.8 and 40. -/
def intro_bison_request (style genre language duration : String) : BisonRequest :=
  ⟨intro_prompt style genre language duration, 0.8, 512, 0.8, 40⟩

/-- The fallback (Gemini) request of `generate_music_intro`: temperature 0.8,
max_output_tokens 512, with `top_p` and `top_k` at the method defaults 1.0 and 32. -/
def intro_gemini_request (style genre language duration : String) : GeminiRequest :=
  ⟨intro_prompt style genre language duration, ⟨0.8, 1.0, 32, 512⟩, none⟩

/-- `GoogleCloudAIService.generate_music_intro`: try text-bison; on any
`Exception` fall back to Gemini (source comment: "Fallback a Gemini si
text-bison falla"). -/
def generate_music_intro (s : GoogleCloudAIService)
    (style genre language duration : String) :
    Except Err String × List ProviderCall :=
  let prompt := intro_prompt style genre language duration
  match generate_text_with_bison s prompt 0.8 512 0.8 40 with
  | (.ok r, tr) => (.ok r, tr)
  | (.error _, tr) =>
    let (res, tr2) := generate_text_with_gemini s prompt 0.8 512 1.0 32
    (res, tr ++ tr2)

/-- The f-string prompt template of `analyze_music_preferences`; `user_data`
stands for the interpolated repr of the user-data dict. -/
def preferences_prompt (user_data : String) : String :=
  s!"\n        Analiza las siguientes preferencias musicales del usuario y proporciona insights:\n        \n        Datos del usuario:\n        {user_data}\n        \n        Proporciona:\n        1. Resumen de géneros favoritos\n        2. Patrones de escucha\n        3. Recomendaciones de nuevos géneros\n        4. Artistas similares que podrían gustar\n        5. Tendencias musicales relevantes\n        "

/-- `GoogleCloudAIService.analyze_music_preferences`: one Gemini call with
temperature 0.6 and max_output_tokens 1024 (top_p, top_k at defaults 1.0, 32). -/
def analyze_music_preferences (s : GoogleCloudAIService) (user_data : String) :
    Except Err String × List ProviderCall :=
  generate_text_with_gemini s (preferences_prompt user_data) 0.6 1024 1.0 32

/-- The f-string prompt template of `generate_playlist_description`, with
`songs_text` the first ten songs joined by newlines. -/
def playlist_prompt (playlist_name : String) (songs : List String) (theme : String) : String :=
  let songs_text := String.intercalate "\n" (songs.take 10)
  s!"\n        Genera una descripción atractiva para una playlist llamada \"{playlist_name}\".\n        \n        Tema/Mood: {theme}\n        \n        Canciones incluidas:\n        {songs_text}\n        \n        La descripción debe:\n        - Capturar el mood/atmósfera de las canciones\n        - Ser atractiva para los usuarios\n        - Mencionar cuándo es ideal escuchar esta playlist\n        - Tener entre 50-150 palabras\n        "

/-- `GoogleCloudAIService.generate_playlist_description`: one text-bison call
with temperature 0.7 and max_output_tokens 256 (top_p, top_k at defaults 0.8, 40). -/
def generate_playlist_description (s : GoogleCloudAIService)
    (playlist_name : String) (songs : List String) (theme : String) :
    Except Err String × List ProviderCall :=
  generate_text_with_bison s (playlist_prompt playlist_name songs theme) 0.7 256 0.8 40

/-- The status dict returned by `get_service_status`. -/
structure ServiceStatus where
  initialized : Bool
  project_id : Option String
  location : String
  available_models : List String
deriving DecidableEq, Repr

/-- `GoogleCloudAIService.get_service_status`: builds the status dict from the
instance fields; the body contains no raise and no fallible call. -/
def get_service_status (s : GoogleCloudAIService) : Except Err ServiceStatus :=
  .ok ⟨s.is_initialized, s.project_id, s.location, ["text-bison", "gemini-pro"]⟩

/-- The fixed liveness-probe prompt of `test_connection`. -/
def test_prompt : String :=
  "Escribe un saludo corto y amigable para probar la conexión."

/-- The primary (text-bison) request of `test_connection`. -/
def test_bison_request : BisonRequest := ⟨test_prompt, 0.5, 100, 0.8, 40⟩

/-- The fallback (Gemini) request of `test_connection`. -/
def test_gemini_request : GeminiRequest := ⟨test_prompt, ⟨0.5, 1.0, 32, 100⟩, none⟩

/-- `GoogleCloudAIService.test_connection`: try text-bison with the fixed test
prompt; on any `Exception` fall back to Gemini. -/
def test_connection (s : GoogleCloudAIService) :
    Except Err String × List ProviderCall :=
  match generate_text_with_bison s test_prompt 0.5 100 0.8 40 with
  | (.ok r, tr) => (.ok r, tr)
  | (.error _, tr) =>
    let (res, tr2) := generate_text_with_gemini s test_prompt 0.5 100 1.0 32
    (res, tr ++ tr2)

end GoogleAI

namespace VertexAI

open GoogleAI (SafetySetting)

/-- `types.ThinkingConfig` as built by `_create_generate_config`. -/
structure ThinkingConfig where
  thinking_budget : Int
deriving DecidableEq, Repr

/-- `types.GenerateContentConfig` as built by `VertexAIService._create_generate_config`. -/
structure GenerateContentConfig where
  temperature : ℚ
  top_p : ℚ
  max_output_tokens : ℕ
  safety_settings : List SafetySetting
  thinking_config : ThinkingConfig
deriving DecidableEq, Repr

/-- `VertexAIService._create_safety_settings`: the four harm categories, all at
threshold OFF. -/
def create_safety_settings : List SafetySetting :=
  [⟨"HARM_CATEGORY_HATE_SPEECH", "OFF"⟩,
   ⟨"HARM_CATEGORY_DANGEROUS_CONTENT", "OFF"⟩,
   ⟨"HARM_CATEGORY_SEXUALLY_EXPLICIT", "OFF"⟩,
   ⟨"HARM_CATEGORY_HARASSMENT", "OFF"⟩]

/-- `VertexAIService._create_generate_config`: forwards the three generation
parameters and attaches the safety settings and a thinking budget of -1. -/
def create_generate_config (temperature : ℚ) (top_p : ℚ) (max_output_tokens : ℕ) :
    GenerateContentConfig :=
  ⟨temperature, top_p, max_output_tokens, create_safety_settings, ⟨-1⟩⟩

/-- `types.Blob`: inline data with a MIME type and base64-encoded payload. -/
structure Blob where
  mime_type : String
  data : String
deriving DecidableEq, Repr

/-- `types.Part`: either text or inline data. -/
structure Part where
  text : Option String
  inline_data : Option Blob
deriving DecidableEq, Repr

/-- `types.Content`: a role plus parts. -/
structure Content where
  role : String
  parts : List Part
deriving DecidableEq, Repr

/-- One `client.models.generate_content_stream` call: model identifier,
contents, and the generation config. -/
structure GenStreamRequest where
  model : String
  contents : List Content
  config : GenerateContentConfig
deriving DecidableEq, Repr

/-- One event observed while iterating the backend stream: a chunk carrying its
`text` attribute (the empty string also stands for a `None` text, which Python
truthiness treats identically), or an exception raised by the iterator. -/
inductive StreamEvent where
  | chunk (text : String)
  | raiseErr (e : Err)
deriving DecidableEq, Repr

/-- State of one `VertexAIService` instance; `has_client` is `client is not
None`, and `backend` is the oracle behaviour of
`client.models.generate_content_stream` for a given request. -/
structure VertexAIService where
  is_initialized : Bool
  has_client : Bool
  model : String
  backend : GenStreamRequest → List StreamEvent

/-- Message of the exception raised by `_check_client`. -/
def vertex_not_init_msg : String :=
  "Vertex AI no está inicializado correctamente. Verifica la configuración de Google Cloud y las credenciales."

/-- `VertexAIService._check_client`. -/
def check_client (s : VertexAIService) : Except Err Unit :=
  if ! s.is_initialized || ! s.has_client then
    .error (.notInitialized vertex_not_init_msg)
  else
    .ok ()

/-- What iterating the generator body of `generate_content_stream` over the raw
backend events produces: the fragments it yields (each chunk's text, skipped
when falsy) and the exception, if any, that aborts the iteration. -/
def stream_events_output : List StreamEvent → List String × Option Err
  | [] => ([], none)
  | .chunk t :: rest =>
    let (ys, e) := stream_events_output rest
    (if t ≠ "" then t :: ys else ys, e)
  | .raiseErr e :: _ => ([], some e)

/-- The request built by `generate_content_stream`: one user content holding
the prompt, with the config from `_create_generate_config`. -/
def content_request (model prompt : String) (temperature top_p : ℚ)
    (max_output_tokens : ℕ) : GenStreamRequest :=
  ⟨model, [⟨"user", [⟨some prompt, none⟩]⟩],
   create_generate_config temperature top_p max_output_tokens⟩

/-- `VertexAIService.generate_content_stream`: check the client, then iterate
the backend stream, yielding each truthy `chunk.text`; the `except` block only
logs and re-raises.  Returns the yielded fragments, the aborting exception if
any, and the requests sent. -/
def generate_content_stream (s : VertexAIService) (prompt : String)
    (temperature top_p : ℚ) (max_output_tokens : ℕ) :
    (List String × Option Err) × List GenStreamRequest :=
  match check_client s with
  | .error e => (([], some e), [])
  | .ok _ =>
    let req := content_request s.model prompt temperature top_p max_output_tokens
    (stream_events_output (s.backend req), [req])

/-- `VertexAIService.generate_content`: drains `generate_content_stream`,
concatenating the fragments into `result`; any exception raised while iterating
is re-raised, discarding the partial accumulation. -/
def generate_content (s : VertexAIService) (prompt : String)
    (temperature top_p : ℚ) (max_output_tokens : ℕ) :
    Except Err String × List GenStreamRequest :=
  match generate_content_stream s prompt temperature top_p max_output_tokens with
  | ((_, some e), tr) => (.error e, tr)
  | ((ys, none), tr) => (.ok (ys.foldl (· ++ ·) ""), tr)

/-- The base64 alphabet. -/
def base64_chars : List Char :=
  "ABCDEFGHIJKLMNOPQRSTUVWXYZabcdefghijklmnopqrstuvwxyz0123456789+/".toList

/-- The base64 character of a 6-bit value. -/
def b64char (n : ℕ) : Char := base64_chars.getD n 'A'

/-- `base64.b64encode(...).decode('utf-8')` over a byte list. -/
def base64_encode : List ℕ → String
  | [] => ""
  | [a] =>
    String.mk [b64char (a / 4), b64char (a % 4 * 16)] ++ "=="
  | [a, b] =>
    String.mk [b64char (a / 4), b64char (a % 4 * 16 + b / 16), b64char (b % 16 * 4)] ++ "="
  | a :: b :: c :: rest =>
    let w := a * 65536 + b * 256 + c
    String.mk [b64char (w / 262144 % 64), b64char (w / 4096 % 64),
               b64char (w / 64 % 64), b64char (w % 64)] ++ base64_encode rest

/-- The fixed instruction text of `generate_music_analysis`. -/
def analysis_instruction : String :=
  "Analiza este archivo de audio y proporciona información sobre género musical, tempo, instrumentos detectados y características generales:"

/-- The request built by `generate_music_analysis`: the instruction part plus an
inline `audio/wav` blob with the base64-encoded audio, config at temperature
0.3 (other parameters at the `_create_generate_config` defaults 0.95, 65535). -/
def analysis_request (model : String) (audio_data : List ℕ) : GenStreamRequest :=
  ⟨model,
   [⟨"user", [⟨some analysis_instruction, none⟩,
              ⟨none, some ⟨"audio/wav", base64_encode audio_data⟩⟩]⟩],
   create_generate_config 0.3 0.95 65535⟩

/-- `VertexAIService.generate_music_analysis`: check the client, then drain one
streaming call over the audio-analysis request, concatenating truthy chunk
texts; exceptions re-raise. -/
def generate_music_analysis (s : VertexAIService) (audio_data : List ℕ) :
    Except Err String × List GenStreamRequest :=
  match check_client s with
  | .error e => (.error e, [])
  | .ok _ =>
    let req := analysis_request s.model audio_data
    match stream_events_output (s.backend req) with
    | (_, some e) => (.error e, [req])
    | (ys, none) => (.ok (ys.foldl (· ++ ·) ""), [req])

/-- The f-string prompt template of `generate_music_recommendation`;
`user_preferences` and `listening_history` stand for the interpolated reprs of
the dict and list arguments. -/
def recommendation_prompt (user_preferences listening_history : String) : String :=
  s!"\n            Basándote en las siguientes preferencias del usuario y su historial de reproducción,\n            genera recomendaciones musicales personalizadas:\n\n            Preferencias del usuario:\n            {user_preferences}\n\n            Historial de reproducción reciente:\n            {listening_history}\n\n            Por favor, proporciona:\n            1. 5 canciones recomendadas con artista y título\n            2. Géneros musicales que podrían interesar al usuario\n            3. Breve explicación de por qué estas recomendaciones encajan con sus gustos\n            "

/-- `VertexAIService.generate_music_recommendation`: one `generate_content`
call with temperature 0.7 and max_output_tokens 2048 (top_p at the default
0.95); the `except` block only logs and re-raises. -/
def generate_music_recommendation (s : VertexAIService)
    (user_preferences listening_history : String) :
    Except Err String × List GenStreamRequest :=
  generate_content s (recommendation_prompt user_preferences listening_history)
    0.7 0.95 2048

/-- Outcome of the `google.auth.default()` call inside `_initialize_client`:
credentials found, a `DefaultCredentialsError`, or some other exception raised
inside the resolver (e.g. a malformed credential file). -/
inductive CredOutcome where
  | found (project : Option String)
  | defaultCredentialsError
  | fault (e : Err)
deriving DecidableEq, Repr

/-- The environment `VertexAIService._initialize_client` runs against: the
settings, the behaviour of `google.auth.default()`, and the behaviour of the
`genai.Client(...)` constructor. -/
structure InitEnv where
  settings : Settings
  cred : CredOutcome
  client_init : Except Err Unit

/-- `VertexAIService._initialize_client`, returning the resulting
`(is_initialized, client is not None)` pair.  The body: if no project is
configured, return; a `DefaultCredentialsError` from `default()` is caught by
the inner handler and the method returns; any other exception reaches the
outer `except Exception` handler, which logs and resets the state.  The
`Except` in the result type records whether the method itself raises. -/
def initialize_client (env : InitEnv) : Except Err (Bool × Bool) :=
  let body : Except Err (Bool × Bool) :=
    if ! truthy env.settings.GOOGLE_CLOUD_PROJECT then
      .ok (false, false)
    else
      match env.cred with
      | .defaultCredentialsError => .ok (false, false)
      | .fault e => .error e
      | .found _ =>
        match env.client_init with
        | .error e => .error e
        | .ok _ => .ok (true, true)
  match body with
  | .error _ => .ok (false, false)
  | .ok r => .ok r

end VertexAI

namespace VertexSimple

/-- State of one `VertexAIServiceSimple` instance (only the fields `get_status`
reads are needed here). -/
structure VertexAIServiceSimple where
  is_initialized : Bool
  model : String
deriving DecidableEq, Repr

/-- The status dict returned by `VertexAIServiceSimple.get_status`. -/
structure SimpleStatus where
  initialized : Bool
  model : String
  auth_method : String
  project : String
deriving DecidableEq, Repr

/-- `VertexAIServiceSimple.get_status`: builds the status dict from the
instance state and the settings; the body contains no raise and no fallible
call.  `auth_method` is "API_KEY" when an API key is configured, otherwise
"DEFAULT_CREDENTIALS"; `project` falls back to "No configurado". -/
def get_status (s : VertexAIServiceSimple) (st : Settings) : Except Err SimpleStatus :=
  .ok ⟨s.is_initialized, s.model,
       if truthy st.GOOGLE_API_KEY then "API_KEY" else "DEFAULT_CREDENTIALS",
       pyOr st.GOOGLE_CLOUD_PROJECT "No configurado"⟩

end VertexSimple

namespace Routes

open GoogleAI

/-- The `GenerateTextRequest` pydantic model of
src/backend/app/api/routes/google_ai.py (field defaults: model "text-bison",
temperature 0.7, max_output_tokens 1024, top_p 0.8, top_k 40). -/
structure GenerateTextRequest where
  prompt : String
  model : String
  temperature : ℚ
  max_output_tokens : ℕ
  top_p : ℚ
  top_k : ℕ
deriving DecidableEq, Repr

/-- An `HTTPException` raised by a route handler. -/
structure HTTPError where
  status_code : ℕ
  detail : String
deriving DecidableEq, Repr

/-- The response dict of the text-generation routes. -/
structure GenerateTextResponse where
  content : String
  model_used : String
  success : Bool
deriving DecidableEq, Repr

/-- The shared body of the `/generate-text` and `/test-text` handlers: dispatch
on `request.model` — exactly the string "gemini-pro" selects Gemini, anything
else falls to the text-bison branch — and wrap any exception in an
HTTP 500. -/
def generate_text_body (s : GoogleCloudAIService) (req : GenerateTextRequest) :
    Except HTTPError GenerateTextResponse × List ProviderCall :=
  let (res, tr) :=
    if req.model = "gemini-pro" then
      generate_text_with_gemini s req.prompt req.temperature req.max_output_tokens
        req.top_p req.top_k
    else
      generate_text_with_bison s req.prompt req.temperature req.max_output_tokens
        req.top_p req.top_k
  match res with
  | .ok content => (.ok ⟨content, req.model, true⟩, tr)
  | .error e =>
    (.error ⟨500, "Error generando texto: " ++ e.message⟩, tr)

/-- The `/generate-text` handler `generate_text`. -/
def generate_text (s : GoogleCloudAIService) (req : GenerateTextRequest) :
    Except HTTPError GenerateTextResponse × List ProviderCall :=
  generate_text_body s req

/-- The `/test-text` handler `test_text_generation` (same body, no auth). -/
def test_text_generation (s : GoogleCloudAIService) (req : GenerateTextRequest) :
    Except HTTPError GenerateTextResponse × List ProviderCall :=
  generate_text_body s req

end Routes

section Witnesses

open GoogleAI VertexAI

/-- A concrete uninitialized `GoogleCloudAIService` (both oracles would answer
"ok" if they were ever reached). -/
def gsUninit : GoogleCloudAIService :=
  ⟨false, none, "us-central1", fun _ => .ok "bison-ok", fun _ => .ok "gemini-ok"⟩

/-- A concrete uninitialized `VertexAIService`. -/
def vsUninit : VertexAIService :=
  ⟨false, false, "gemini-2.5-flash", fun _ => [.chunk "ok"]⟩

/-- A concrete initialized `GoogleCloudAIService` whose bison oracle succeeds. -/
def gsBisonOk : GoogleCloudAIService :=
  ⟨true, some "demo-project", "us-central1", fun _ => .ok "intro-bison",
   fun _ => .ok "intro-gemini"⟩

/-- A concrete initialized `GoogleCloudAIService` whose bison oracle raises a
`ValidationError` while the gemini oracle succeeds. -/
def gsBisonValErr : GoogleCloudAIService :=
  ⟨true, some "demo-project", "us-central1",
   fun _ => .error (.validationError "temperature"), fun _ => .ok "OK"⟩

/-- A concrete initialized `GoogleCloudAIService` whose bison oracle raises a
`GenerationFailure` while the gemini oracle succeeds. -/
def gsBisonFail : GoogleCloudAIService :=
  ⟨true, some "demo-project", "us-central1",
   fun _ => .error (.generationFailure "quota"), fun _ => .ok "OK"⟩

/-- A concrete initialized `VertexAIService` whose backend emits "Par" and then
raises. -/
def vsPartial : VertexAIService :=
  ⟨true, true, "gemini-2.5-flash",
   fun _ => [.chunk "Par", .raiseErr (.generationFailure "network")]⟩

/-- A concrete initialized `VertexAIService` whose backend emits the fragments
"He", "llo", "", " world" and ends normally. -/
def vsHello : VertexAIService :=
  ⟨true, true, "gemini-2.5-flash",
   fun _ => [.chunk "He", .chunk "llo", .chunk "", .chunk " world"]⟩

/-- A concrete initialization environment whose credential resolver raises a
resolver-internal fault (a malformed credential file). -/
def envFault : InitEnv :=
  ⟨⟨some "demo-project", "us-central1", none, "gemini-2.5-flash"⟩,
   .fault (.other "malformed credential file"), .ok ()⟩

/-- A concrete initialization environment with a configured project but no
discoverable ambient credentials. -/
def envNoCreds : InitEnv :=
  ⟨⟨some "demo-project", "us-central1", none, "gemini-2.5-flash"⟩,
   .defaultCredentialsError, .ok ()⟩

/-- A concrete text-generation route request with a misspelled model name. -/
def reqMisspelled : Routes.GenerateTextRequest :=
  ⟨"Hola", "gemini", 0.7, 1024, 0.8, 40⟩

end Witnesses

section StreamLemmas

open GoogleAI VertexAI

/-- Helper: iterating the stream body over a prefix of chunk events followed by
further events yields the nonempty chunk texts of the prefix followed by
whatever the tail yields. -/
theorem stream_events_output_chunks_append (l : List String) (evs : List StreamEvent) :
    stream_events_output (l.map StreamEvent.chunk ++ evs)
      = ((l.filter fun t => t ≠ "") ++ (stream_events_output evs).1,
         (stream_events_output evs).2) := by
  induction l with
  | nil => simp
  | cons a l ih =>
    simp only [List.map_cons, List.cons_append, stream_events_output, List.filter_cons]
    by_cases ha : a = "" <;> simp [ha, ih]

/-- Helper: a ready service's `generate_content` call denotes the drain of the
backend stream for the request it builds. -/
theorem generate_content_ready (s : VertexAIService)
    (hinit : s.is_initialized = true) (hcl : s.has_client = true)
    (prompt : String) (t p : ℚ) (m : ℕ) :
    generate_content s prompt t p m
      = (match stream_events_output (s.backend (content_request s.model prompt t p m)) with
         | (_, some e) => Except.error e
         | (ys, none) => Except.ok (ys.foldl (· ++ ·) ""),
         [content_request s.model prompt t p m]) := by
  simp only [generate_content, generate_content_stream, check_client, hinit, hcl]
  simp only [Bool.not_true, Bool.or_self, Bool.false_eq_true, if_false]
  rcases h : stream_events_output (s.backend (content_request s.model prompt t p m)) with ⟨ys, e⟩
  cases e <;> simp

end StreamLemmas

section ClaimC6

open GoogleAI VertexAI

/-- C6: for every finite sequence of text fragments delivered by the backend
stream, `generate_content` (draining `generate_content_stream`) returns the
concatenation of all non-empty fragments in arrival order; empty fragments
contribute nothing and do not terminate the stream. -/
theorem aggregation_concatenates_nonempty_fragments
    (s : VertexAIService) (hinit : s.is_initialized = true) (hcl : s.has_client = true)
    (prompt : String) (t p : ℚ) (m : ℕ) (fragments : List String)
    (hb : s.backend (content_request s.model prompt t p m)
        = fragments.map StreamEvent.chunk) :
    generate_content s prompt t p m
      = (.ok ((fragments.filter fun x => x ≠ "").foldl (· ++ ·) ""),
         [content_request s.model prompt t p m]) := by
  have h := generate_content_ready s hinit hcl prompt t p m
  rw [hb] at h
  have h2 := stream_events_output_chunks_append fragments []
  simp only [List.append_nil] at h2
  rw [h2] at h
  simpa [stream_events_output] using h

/-- C6 witness: aggregating the fragments "He", "llo", "", " world" returns
"Hello world". -/
theorem aggregation_concatenates_nonempty_fragments_witness :
    generate_content vsHello "Hola" 1.0 0.95 65535
      = (.ok "Hello world",
         [content_request "gemini-2.5-flash" "Hola" 1.0 0.95 65535]) := by
  have h := aggregation_concatenates_nonempty_fragments vsHello rfl rfl "Hola" 1.0 0.95 65535
    ["He", "llo", "", " world"] rfl
  exact h

end ClaimC6

section ClaimC5

open GoogleAI VertexAI

/-- C5: if the backend stream raises after emitting some fragments, the
aggregated `generate_content` call propagates that error and never returns the
partial concatenation accumulated so far. -/
theorem stream_error_propagates_no_partial
    (s : VertexAIService) (hinit : s.is_initialized = true) (hcl : s.has_client = true)
    (prompt : String) (t p : ℚ) (m : ℕ)
    (fragments : List String) (e : Err) (rest : List StreamEvent)
    (hb : s.backend (content_request s.model prompt t p m)
        = fragments.map StreamEvent.chunk ++ StreamEvent.raiseErr e :: rest) :
    generate_content s prompt t p m
      = (.error e, [content_request s.model prompt t p m])
    ∧ (generate_content s prompt t p m).1
      ≠ .ok ((fragments.filter fun x => x ≠ "").foldl (· ++ ·) "") := by
  have h := generate_content_ready s hinit hcl prompt t p m
  rw [hb] at h
  rw [stream_events_output_chunks_append fragments (StreamEvent.raiseErr e :: rest)] at h
  simp only [stream_events_output] at h
  refine ⟨ h, ?_ ⟩
  rw [h]
  simp

/-- C5 witness: a stream that raises after emitting "Par" yields the error,
never the partial result "Par". -/
theorem stream_error_propagates_no_partial_witness :
    generate_content vsPartial "Hola" 1.0 0.95 65535
      = (.error (.generationFailure "network"),
         [content_request "gemini-2.5-flash" "Hola" 1.0 0.95 65535])
    ∧ (generate_content vsPartial "Hola" 1.0 0.95 65535).1 ≠ .ok "Par" := by
  have h := stream_error_propagates_no_partial vsPartial rfl rfl "Hola" 1.0 0.95 65535
    ["Par"] (.generationFailure "network") [] rfl
  exact h

end ClaimC5

section TraceLemmas

open GoogleAI VertexAI

/-- Helper: `generate_content_stream` either stops at the client check with an
empty trace, or sends exactly the one request it builds. -/
theorem generate_content_stream_trace (s : VertexAIService) (prompt : String)
    (t p : ℚ) (m : ℕ) :
    (generate_content_stream s prompt t p m).2 = []
    ∨ (generate_content_stream s prompt t p m).2
        = [content_request s.model prompt t p m] := by
  unfold generate_content_stream
  cases hc : check_client s <;> simp [hc]

/-- Helper: draining in `generate_content` does not change the requests sent. -/
theorem generate_content_snd_eq (s : VertexAIService) (prompt : String)
    (t p : ℚ) (m : ℕ) :
    (generate_content s prompt t p m).2
      = (generate_content_stream s prompt t p m).2 := by
  unfold generate_content
  rcases generate_content_stream s prompt t p m with ⟨⟨ys, e⟩, tr⟩
  cases e <;> rfl

end TraceLemmas

section ClaimC1

open GoogleAI VertexAI

/-- C1 counterexample: the claim fails on `GoogleCloudAIService` — the Gemini
request sent by `generate_text_with_gemini` (here at that method's own default
parameter values) carries no safety settings at all, so not every gateway
operation of both service instances attaches the fixed permissive safety
policy. -/
theorem gemini_request_sends_no_safety_policy :
    (generate_text_with_gemini gsBisonOk "Hola" 0.9 2048 1.0 32).2
      = [.geminiCall ⟨"Hola", ⟨0.9, 1.0, 32, 2048⟩, none⟩]
    ∧ (GeminiRequest.mk "Hola" ⟨0.9, 1.0, 32, 2048⟩ none).safety_settings
        ≠ some create_safety_settings := by
  exact ⟨ rfl, by simp ⟩

/-- C1 amended: `VertexAIService._create_generate_config` attaches the fixed
permissive safety policy — all four harm categories at threshold OFF —
regardless of the caller-supplied parameters, and every request
`generate_content` sends carries that policy; the `GoogleCloudAIService`
operations, however, send their requests without any safety settings. -/
theorem vertex_config_always_attaches_safety_policy (t p : ℚ) (m : ℕ) :
    (create_generate_config t p m).safety_settings = create_safety_settings
    ∧ create_safety_settings
        = [⟨"HARM_CATEGORY_HATE_SPEECH", "OFF"⟩,
           ⟨"HARM_CATEGORY_DANGEROUS_CONTENT", "OFF"⟩,
           ⟨"HARM_CATEGORY_SEXUALLY_EXPLICIT", "OFF"⟩,
           ⟨"HARM_CATEGORY_HARASSMENT", "OFF"⟩]
    ∧ (∀ (s : VertexAIService) (prompt : String) (req : GenStreamRequest),
        req ∈ (generate_content s prompt t p m).2 →
        req.config.safety_settings = create_safety_settings)
    ∧ (∀ (s : GoogleCloudAIService) (prompt : String) (r : GeminiRequest),
        .geminiCall r ∈ (generate_text_with_gemini s prompt t m p 32).2 →
        r.safety_settings = none) := by
  refine ⟨ rfl, rfl, ?_, ?_ ⟩
  · intro s prompt req hmem
    rw [generate_content_snd_eq] at hmem
    rcases generate_content_stream_trace s prompt t p m with h | h <;> rw [h] at hmem
    · simp at hmem
    · simp at hmem
      subst hmem
      rfl
  · intro s prompt r hmem
    unfold generate_text_with_gemini at hmem
    cases hc : check_initialization s <;> rw [hc] at hmem <;> simp at hmem
    subst hmem
    rfl

/-- C1 amended witness: at the streaming defaults, the config and the one
request actually sent both carry the fixed policy. -/
theorem vertex_config_always_attaches_safety_policy_witness :
    (create_generate_config 1.0 0.95 65535).safety_settings = create_safety_settings
    ∧ (content_request "gemini-2.5-flash" "Hola" 1.0 0.95 65535).config.safety_settings
        = create_safety_settings := by
  have h := vertex_config_always_attaches_safety_policy 1.0 0.95 65535
  refine ⟨ h.1, ?_ ⟩
  exact h.2.2.1 vsHello "Hola" (content_request "gemini-2.5-flash" "Hola" 1.0 0.95 65535)
    (List.Mem.head _)

end ClaimC1

section ClaimC2

open GoogleAI VertexAI

/-- C2: when a service's initialization state is not Ready (`is_initialized`
false, or for the Vertex service the client absent), every gateway generation
operation fails with the not-initialized configuration error and attempts no
provider call (empty request trace). -/
theorem not_ready_ops_fail_fast
    (gs : GoogleCloudAIService) (vs : VertexAIService)
    (hg : gs.is_initialized = false)
    (hv : vs.is_initialized = false ∨ vs.has_client = false) :
    (∀ prompt t m p k, generate_text_with_bison gs prompt t m p k
        = (.error (.notInitialized not_init_msg), []))
    ∧ (∀ prompt t m p k, generate_text_with_gemini gs prompt t m p k
        = (.error (.notInitialized not_init_msg), []))
    ∧ (∀ style genre language duration,
        generate_music_intro gs style genre language duration
          = (.error (.notInitialized not_init_msg), []))
    ∧ (∀ playlist_name songs theme,
        generate_playlist_description gs playlist_name songs theme
          = (.error (.notInitialized not_init_msg), []))
    ∧ (∀ user_data, analyze_music_preferences gs user_data
        = (.error (.notInitialized not_init_msg), []))
    ∧ (test_connection gs = (.error (.notInitialized not_init_msg), []))
    ∧ (∀ prompt t p m, generate_content vs prompt t p m
        = (.error (.notInitialized vertex_not_init_msg), []))
    ∧ (∀ audio_data, generate_music_analysis vs audio_data
        = (.error (.notInitialized vertex_not_init_msg), []))
    ∧ (∀ user_preferences listening_history,
        generate_music_recommendation vs user_preferences listening_history
          = (.error (.notInitialized vertex_not_init_msg), [])) := by
  have hchk : check_initialization gs = .error (.notInitialized not_init_msg) := by
    simp [check_initialization, hg]
  have hvc : check_client vs = .error (.notInitialized vertex_not_init_msg) := by
    rcases hv with h | h <;> simp [check_client, h]
  refine ⟨ ?_, ?_, ?_, ?_, ?_, ?_, ?_, ?_, ?_ ⟩
  · intro prompt t m p k; simp [generate_text_with_bison, hchk]
  · intro prompt t m p k; simp [generate_text_with_gemini, hchk]
  · intro style genre language duration
    simp [generate_music_intro, generate_text_with_bison, generate_text_with_gemini, hchk]
  · intro playlist_name songs theme
    simp [generate_playlist_description, generate_text_with_bison, hchk]
  · intro user_data
    simp [analyze_music_preferences, generate_text_with_gemini, hchk]
  · simp [test_connection, generate_text_with_bison, generate_text_with_gemini, hchk]
  · intro prompt t p m
    simp [generate_content, generate_content_stream, hvc]
  · intro audio_data
    simp [generate_music_analysis, hvc]
  · intro user_preferences listening_history
    simp [generate_music_recommendation, generate_content, generate_content_stream, hvc]

/-- C2 witness: on concrete uninitialized instances, a fallback-composed
operation and a streaming operation both fail fast with an empty trace. -/
theorem not_ready_ops_fail_fast_witness :
    generate_music_intro gsUninit "radio" "pop" "español" "30 segundos"
      = (.error (.notInitialized not_init_msg), [])
    ∧ generate_content vsUninit "Hola" 1.0 0.95 65535
      = (.error (.notInitialized vertex_not_init_msg), []) := by
  obtain ⟨h1, h2, h3, h4, h5, h6, h7, h8, h9⟩ :=
    not_ready_ops_fail_fast gsUninit vsUninit rfl (Or.inl rfl)
  exact ⟨ h3 "radio" "pop" "español" "30 segundos", h7 "Hola" 1.0 0.95 65535 ⟩

end ClaimC2

section ClaimC3

open GoogleAI

/-- C3: for the fallback-composed operations `generate_music_intro` and
`test_connection` on a Ready service: if the primary (text-bison) call
succeeds, its result is returned and Gemini is never invoked; if the primary
raises a generation failure, Gemini is invoked and its result is returned; if
both raise, the failure surfaced is Gemini's. -/
theorem fallback_primary_secondary_behaviour
    (gs : GoogleCloudAIService) (hinit : gs.is_initialized = true)
    (style genre language duration : String) :
    (∀ r, gs.bison (intro_bison_request style genre language duration) = .ok r →
      generate_music_intro gs style genre language duration
        = (.ok r, [.bisonCall (intro_bison_request style genre language duration)]))
    ∧ (∀ cause,
        gs.bison (intro_bison_request style genre language duration)
          = .error (.generationFailure cause) →
        generate_music_intro gs style genre language duration
          = (gs.gemini (intro_gemini_request style genre language duration),
             [.bisonCall (intro_bison_request style genre language duration),
              .geminiCall (intro_gemini_request style genre language duration)]))
    ∧ (∀ cause e₂,
        gs.bison (intro_bison_request style genre language duration)
          = .error (.generationFailure cause) →
        gs.gemini (intro_gemini_request style genre language duration) = .error e₂ →
        generate_music_intro gs style genre language duration
          = (.error e₂,
             [.bisonCall (intro_bison_request style genre language duration),
              .geminiCall (intro_gemini_request style genre language duration)]))
    ∧ (∀ r, gs.bison test_bison_request = .ok r →
        test_connection gs = (.ok r, [.bisonCall test_bison_request]))
    ∧ (∀ cause, gs.bison test_bison_request = .error (.generationFailure cause) →
        test_connection gs
          = (gs.gemini test_gemini_request,
             [.bisonCall test_bison_request, .geminiCall test_gemini_request]))
    ∧ (∀ cause e₂, gs.bison test_bison_request = .error (.generationFailure cause) →
        gs.gemini test_gemini_request = .error e₂ →
        test_connection gs
          = (.error e₂,
             [.bisonCall test_bison_request, .geminiCall test_gemini_request])) := by
  have hchk : check_initialization gs = .ok () := by
    simp [check_initialization, hinit]
  refine ⟨ ?_, ?_, ?_, ?_, ?_, ?_ ⟩
  · intro r hb
    simp [generate_music_intro, generate_text_with_bison, hchk,
      intro_bison_request] at hb ⊢
    simp [hb]
  · intro cause hb
    simp [generate_music_intro, generate_text_with_bison, generate_text_with_gemini,
      hchk, intro_bison_request, intro_gemini_request] at hb ⊢
    simp [hb]
  · intro cause e₂ hb hgem
    simp [generate_music_intro, generate_text_with_bison, generate_text_with_gemini,
      hchk, intro_bison_request, intro_gemini_request] at hb hgem ⊢
    simp [hb, hgem]
  · intro r hb
    simp [test_connection, generate_text_with_bison, hchk, test_bison_request] at hb ⊢
    simp [hb]
  · intro cause hb
    simp [test_connection, generate_text_with_bison, generate_text_with_gemini,
      hchk, test_bison_request, test_gemini_request] at hb ⊢
    simp [hb]
  · intro cause e₂ hb hgem
    simp [test_connection, generate_text_with_bison, generate_text_with_gemini,
      hchk, test_bison_request, test_gemini_request] at hb hgem ⊢
    simp [hb, hgem]

/-- C3 witness: with a succeeding primary, `generate_music_intro` returns the
primary result and the trace shows Gemini was never invoked. -/
theorem fallback_primary_secondary_behaviour_witness :
    generate_music_intro gsBisonOk "radio" "pop" "español" "30 segundos"
      = (.ok "intro-bison",
         [.bisonCall (intro_bison_request "radio" "pop" "español" "30 segundos")]) := by
  exact (fallback_primary_secondary_behaviour gsBisonOk rfl
    "radio" "pop" "español" "30 segundos").1 "intro-bison" rfl

end ClaimC3

section ClaimC4

open GoogleAI

/-- C4 counterexample: a primary failure that is a `ValidationError` (not a
`GenerationFailure`) nevertheless triggers the fallback — the Gemini call
appears in the trace and its result is returned instead of the original error
propagating. -/
theorem fallback_triggered_by_validation_error :
    gsBisonValErr.bison (intro_bison_request "radio" "pop" "español" "30 segundos")
      = .error (.validationError "temperature")
    ∧ generate_music_intro gsBisonValErr "radio" "pop" "español" "30 segundos"
      = (.ok "OK",
         [.bisonCall (intro_bison_request "radio" "pop" "español" "30 segundos"),
          .geminiCall (intro_gemini_request "radio" "pop" "español" "30 segundos")]) := by
  exact ⟨ rfl, rfl ⟩

/-- C4 amended: the source's `except Exception:` handler catches every
exception class from the primary path — any error (validation, configuration,
generation failure or other) triggers the Gemini fallback; only a successful
primary skips it. -/
theorem fallback_catches_every_error
    (gs : GoogleCloudAIService) (hinit : gs.is_initialized = true)
    (style genre language duration : String) :
    (∀ e, gs.bison (intro_bison_request style genre language duration) = .error e →
      generate_music_intro gs style genre language duration
        = (gs.gemini (intro_gemini_request style genre language duration),
           [.bisonCall (intro_bison_request style genre language duration),
            .geminiCall (intro_gemini_request style genre language duration)]))
    ∧ (∀ e, gs.bison test_bison_request = .error e →
      test_connection gs
        = (gs.gemini test_gemini_request,
           [.bisonCall test_bison_request, .geminiCall test_gemini_request])) := by
  have hchk : check_initialization gs = .ok () := by
    simp [check_initialization, hinit]
  refine ⟨ ?_, ?_ ⟩
  · intro e hb
    simp [generate_music_intro, generate_text_with_bison, generate_text_with_gemini,
      hchk, intro_bison_request, intro_gemini_request] at hb ⊢
    simp [hb]
  · intro e hb
    simp [test_connection, generate_text_with_bison, generate_text_with_gemini,
      hchk, test_bison_request, test_gemini_request] at hb ⊢
    simp [hb]

/-- C4 amended witness: a not-`GenerationFailure` error from the primary makes
the operation return the Gemini result. -/
theorem fallback_catches_every_error_witness :
    generate_music_intro gsBisonValErr "radio" "pop" "español" "30 segundos"
      = (gsBisonValErr.gemini (intro_gemini_request "radio" "pop" "español" "30 segundos"),
         [.bisonCall (intro_bison_request "radio" "pop" "español" "30 segundos"),
          .geminiCall (intro_gemini_request "radio" "pop" "español" "30 segundos")]) := by
  exact (fallback_catches_every_error gsBisonValErr rfl
    "radio" "pop" "español" "30 segundos").1 (.validationError "temperature") rfl

end ClaimC4

section ClaimC7

open GoogleAI VertexAI

/-- C7 counterexample: building a generation configuration with temperature -1
and maxOutputTokens 0 succeeds and forwards the out-of-range values unchanged —
no `ValidationError` is raised — and the text-bison path likewise forwards
temperature -1 and maxOutputTokens 0 straight to the backend. -/
theorem out_of_range_parameters_not_rejected :
    create_generate_config (-1) 0.95 0
      = ⟨-1, 0.95, 0, create_safety_settings, ⟨-1⟩⟩
    ∧ (generate_text_with_bison gsBisonOk "Hola" (-1) 0 0.8 40).2
      = [.bisonCall ⟨"Hola", -1, 0, 0.8, 40⟩] := by
  exact ⟨ rfl, rfl ⟩

/-- C7 amended: the configuration builders perform no range validation at all —
every parameter value, in range or not, is forwarded verbatim to the backend
request, and no `ValidationError` naming a field is ever produced. -/
theorem generation_parameters_forwarded_unvalidated (t p : ℚ) (m k : ℕ) :
    create_generate_config t p m = ⟨t, p, m, create_safety_settings, ⟨-1⟩⟩
    ∧ (∀ (s : GoogleCloudAIService), s.is_initialized = true → ∀ prompt,
        generate_text_with_bison s prompt t m p k
          = (s.bison ⟨prompt, t, m, p, k⟩, [.bisonCall ⟨prompt, t, m, p, k⟩]))
    ∧ (∀ (s : GoogleCloudAIService), s.is_initialized = true → ∀ prompt,
        generate_text_with_gemini s prompt t m p k
          = (s.gemini ⟨prompt, ⟨t, p, k, m⟩, none⟩,
             [.geminiCall ⟨prompt, ⟨t, p, k, m⟩, none⟩])) := by
  refine ⟨ rfl, ?_, ?_ ⟩
  · intro s hinit prompt
    simp [generate_text_with_bison, check_initialization, hinit]
  · intro s hinit prompt
    simp [generate_text_with_gemini, check_initialization, hinit]

/-- C7 amended witness: temperature -1 and maxOutputTokens 0 flow through the
bison path unvalidated on a concrete Ready service. -/
theorem generation_parameters_forwarded_unvalidated_witness :
    generate_text_with_bison gsBisonOk "Hola" (-1) 0 0.8 40
      = (gsBisonOk.bison ⟨"Hola", -1, 0, 0.8, 40⟩,
         [.bisonCall ⟨"Hola", -1, 0, 0.8, 40⟩]) := by
  exact (generation_parameters_forwarded_unvalidated (-1) 0.8 0 40).2.1
    gsBisonOk rfl "Hola"

end ClaimC7

section ClaimC8

open GoogleAI VertexSimple

/-- C8: `get_service_status` and `get_status` never raise, in every service
state including Unavailable: each returns the status snapshot built from the
instance state (so `initialized` is `false` exactly when the service is not
ready), and the explanatory fields — the auth method and the project marker of
the simple service — are always populated (non-empty). -/
theorem get_status_never_raises
    (gs : GoogleCloudAIService) (ss : VertexAIServiceSimple) (st : Settings) :
    get_service_status gs
      = .ok ⟨gs.is_initialized, gs.project_id, gs.location, ["text-bison", "gemini-pro"]⟩
    ∧ VertexSimple.get_status ss st
      = .ok ⟨ss.is_initialized, ss.model,
             (if truthy st.GOOGLE_API_KEY then "API_KEY" else "DEFAULT_CREDENTIALS"),
             pyOr st.GOOGLE_CLOUD_PROJECT "No configurado"⟩
    ∧ (if truthy st.GOOGLE_API_KEY then "API_KEY" else "DEFAULT_CREDENTIALS") ≠ ""
    ∧ pyOr st.GOOGLE_CLOUD_PROJECT "No configurado" ≠ "" := by
  refine ⟨ rfl, rfl, ?_, ?_ ⟩
  · split <;> simp
  · rcases h : st.GOOGLE_CLOUD_PROJECT with _ | s <;> simp only [pyOr, h]
    · simp
    · split_ifs with hs
      · simp
      · exact hs

end ClaimC8

section ClaimC9

open VertexAI

/-- C9 counterexample: a genuine resolver-internal fault (the credential
resolver raising on a malformed credential file) does not propagate — the
initializer's catch-all handler swallows it and the method returns normally
with the service left uninitialized. -/
theorem resolver_fault_swallowed :
    envFault.cred = .fault (.other "malformed credential file")
    ∧ initialize_client envFault = .ok (false, false) := by
  exact ⟨ rfl, rfl ⟩

/-- C9 amended: client initialization never throws at all — a missing project
id, undiscoverable ambient credentials, a resolver-internal fault, and a
failing cloud client constructor all leave the service uninitialized
(Unavailable) as a normal return; no error ever propagates out of
`_initialize_client`. -/
theorem initialization_never_raises (env : InitEnv) :
    (∃ r, initialize_client env = .ok r)
    ∧ (truthy env.settings.GOOGLE_CLOUD_PROJECT = false →
        initialize_client env = .ok (false, false))
    ∧ (env.cred = .defaultCredentialsError →
        initialize_client env = .ok (false, false))
    ∧ (∀ e, env.cred = .fault e → initialize_client env = .ok (false, false))
    ∧ (∀ e, truthy env.settings.GOOGLE_CLOUD_PROJECT = true →
        env.client_init = .error e → initialize_client env = .ok (false, false)) := by
  refine ⟨ ?_, ?_, ?_, ?_, ?_ ⟩
  · unfold initialize_client
    split
    · exact ⟨ (false, false), rfl ⟩
    · cases hc : env.cred with
      | defaultCredentialsError => exact ⟨ (false, false), rfl ⟩
      | fault e => exact ⟨ (false, false), rfl ⟩
      | found project =>
        cases hi : env.client_init with
        | error e => exact ⟨ (false, false), rfl ⟩
        | ok u => exact ⟨ (true, true), rfl ⟩
  · intro h; simp [initialize_client, h]
  · intro h; unfold initialize_client; split <;> simp [h]
  · intro e h; unfold initialize_client; split <;> simp [h]
  · intro e hp h
    unfold initialize_client
    cases hc : env.cred <;> simp [hp, h, hc]

/-- C9 amended witness: with a configured project and no discoverable
credentials, initialization returns normally with the service Unavailable. -/
theorem initialization_never_raises_witness :
    initialize_client envNoCreds = .ok (false, false) := by
  exact (initialization_never_raises envNoCreds).2.2.1 rfl

end ClaimC9

section ClaimC10

open GoogleAI Routes

/-- C10: for every request whose model field is anything other than the exact
string "gemini-pro", both text-generation routes silently dispatch to the
text-bison client — the trace equals the bison call's trace, a successful bison
call yields a successful response echoing the unrecognized model name, and the
unknown model choice is never rejected as an error. -/
theorem unknown_model_routes_to_bison
    (s : GoogleCloudAIService) (req : Routes.GenerateTextRequest)
    (h : req.model ≠ "gemini-pro") :
    (Routes.generate_text s req).2
      = (generate_text_with_bison s req.prompt req.temperature req.max_output_tokens
          req.top_p req.top_k).2
    ∧ (∀ content,
        (generate_text_with_bison s req.prompt req.temperature req.max_output_tokens
          req.top_p req.top_k).1 = .ok content →
        (Routes.generate_text s req).1 = .ok ⟨content, req.model, true⟩)
    ∧ Routes.test_text_generation s req = Routes.generate_text s req := by
  refine ⟨ ?_, ?_, rfl ⟩
  · unfold Routes.generate_text generate_text_body
    simp only [h, if_false]
    rcases generate_text_with_bison s req.prompt req.temperature req.max_output_tokens
      req.top_p req.top_k with ⟨res, tr⟩
    cases res <;> rfl
  · intro content hc
    unfold Routes.generate_text generate_text_body
    simp only [h, if_false]
    rcases hres : generate_text_with_bison s req.prompt req.temperature
      req.max_output_tokens req.top_p req.top_k with ⟨res, tr⟩
    rw [hres] at hc
    simp at hc
    rw [hc]

/-- C10 witness: the misspelled model name "gemini" silently lands on the
text-bison client and is answered successfully, not rejected. -/
theorem unknown_model_routes_to_bison_witness :
    (Routes.generate_text gsBisonOk reqMisspelled).1
      = .ok ⟨"intro-bison", "gemini", true⟩ := by
  have hb : (generate_text_with_bison gsBisonOk reqMisspelled.prompt
      reqMisspelled.temperature reqMisspelled.max_output_tokens
      reqMisspelled.top_p reqMisspelled.top_k).1 = .ok "intro-bison" := rfl
  exact (unknown_model_routes_to_bison gsBisonOk reqMisspelled (by decide)).2.1
    "intro-bison" hb

end ClaimC10

end SwMusic
